import Mathlib

/-!
# The weather client (`client/src/App.js`)

A shallow embedding of the single React component `App`: its six state cells,
the two directory fetches, the city-selection effect with `initiateWS`, the
three WebSocket listeners, the gating of the two dropdowns and the unmount
after a render that throws; followed by the properties of the component that
were checked against it.

JavaScript values are modelled by `JSVal`; the host's `JSON.parse` and
`response.json()` appear through their outcome (a value or a thrown error),
which is what the component's code branches on.
-/

namespace Weather

/-! ## JavaScript values -/

/-- The exceptions the component can meet: `SyntaxError` (malformed JSON text)
and `TypeError` (member access on `null`/`undefined`, call of a non-function,
a rejected `fetch`). -/
inductive JSError
  | syntaxError
  | typeError
  deriving DecidableEq, Repr

/-- A JavaScript value as the component sees it: `undefined` or JSON data.
A Number is named by its canonical decimal text (what `String(n)` yields); the
component never computes with numbers. An object is its list of own
properties, first match wins on lookup. -/
inductive JSVal
  | undefined
  | null
  | bool (b : Bool)
  | num (text : String)
  | str (s : String)
  | arr (items : List JSVal)
  | obj (props : List (String × JSVal))
  deriving Repr

/-- Own-property lookup in an object: the value, or `undefined` when absent. -/
def lookupProp : List (String × JSVal) → String → JSVal
  | [], _ => .undefined
  | (k, v) :: rest, name => if k = name then v else lookupProp rest name

/-- Number of UTF-16 code units of a string (`s.length` in JavaScript). -/
def utf16Length (s : String) : Nat :=
  s.data.foldl (fun n c => n + (if c.val < 0x10000 then 1 else 2)) 0

/-- Member access `v.name` for the data members the component reads
(`sources`, `city`, `_id`, `length`): a `TypeError` on `undefined` and `null`,
the own property of an object, `length` of an array or string, and `undefined`
otherwise. -/
def getProp (v : JSVal) (name : String) : Except JSError JSVal :=
  match v with
  | .undefined => .error .typeError
  | .null => .error .typeError
  | .obj ps => .ok (lookupProp ps name)
  | .arr xs => .ok (if name = "length" then .num (toString xs.length) else .undefined)
  | .str s => .ok (if name = "length" then .num (toString (utf16Length s)) else .undefined)
  | .bool _ => .ok .undefined
  | .num _ => .ok .undefined

/-- Lower-case hexadecimal digit. -/
def hexDigit (n : Nat) : Char :=
  if n < 10 then Char.ofNat (48 + n) else Char.ofNat (87 + n)

/-- One character inside a JSON string literal (`QuoteJSONString`). -/
def escapeChar (c : Char) : List Char :=
  if c.val = 34 then [Char.ofNat 92, Char.ofNat 34]
  else if c.val = 92 then [Char.ofNat 92, Char.ofNat 92]
  else if c.val = 8 then [Char.ofNat 92, 'b']
  else if c.val = 12 then [Char.ofNat 92, 'f']
  else if c.val = 10 then [Char.ofNat 92, 'n']
  else if c.val = 13 then [Char.ofNat 92, 'r']
  else if c.val = 9 then [Char.ofNat 92, 't']
  else if c.val < 32 then
    [Char.ofNat 92, 'u', '0', '0', hexDigit (c.val.toNat / 16), hexDigit (c.val.toNat % 16)]
  else [c]

/-- The JSON string literal for `s`. -/
def quoteJSON (s : String) : String :=
  String.mk (Char.ofNat 34 :: (s.data.flatMap escapeChar ++ [Char.ofNat 34]))

/-- Join with commas. -/
def commaJoin : List String → String
  | [] => ""
  | [x] => x
  | x :: rest => x ++ "," ++ commaJoin rest

mutual
/-- The host's `JSON.stringify(v)`: `none` stands for the result `undefined`. -/
def stringify : JSVal → Option String
  | .undefined => none
  | .null => some "null"
  | .bool b => some (if b then "true" else "false")
  | .num t => some (if t = "NaN" ∨ t = "Infinity" ∨ t = "-Infinity" then "null" else t)
  | .str s => some (quoteJSON s)
  | .arr xs => some ("[" ++ commaJoin (stringifyItems xs) ++ "]")
  | .obj ps => some ("\x7b" ++ commaJoin (stringifyProps ps) ++ "\x7d")
/-- Array elements: `undefined` is written `null`. -/
def stringifyItems : List JSVal → List String
  | [] => []
  | x :: rest => (stringify x).getD "null" :: stringifyItems rest
/-- Object members: a member whose value is `undefined` is left out. -/
def stringifyProps : List (String × JSVal) → List String
  | [] => []
  | (k, v) :: rest =>
    match stringify v with
    | none => stringifyProps rest
    | some t => (quoteJSON k ++ ":" ++ t) :: stringifyProps rest
end

/-- The text `WebSocket.send` transmits for the result of `JSON.stringify`:
the string itself, and `"undefined"` when the result is `undefined`. -/
def sendText : Option String → String
  | some t => t
  | none => "undefined"

/-! ## Component state -/

/-- A dropdown entry `{ value, label }`. -/
structure SelectOption where
  value : JSVal
  label : JSVal
  deriving Repr

/-- The `readyState` of a `WebSocket`. -/
inductive ReadyState
  | CONNECTING
  | OPEN
  | CLOSING
  | CLOSED
  deriving DecidableEq, Repr

/-- The six `useState` cells of `App` (lines 7-12). `socket` is `null` or a
reference to a `WebSocket` object, given by the object's index among the
sockets the component has created. -/
structure AppState where
  weatherData : JSVal
  countries : List SelectOption
  selectedCountry : Option SelectOption
  cities : List SelectOption
  selectedCity : Option SelectOption
  socket : Option Nat
  deriving Repr

/-- A `WebSocket` object created by `initiateWS`: its ready state, the
`selectedCity` its `open` listener closed over, and the text frames sent on it
so far. -/
structure Connection where
  readyState : ReadyState
  selectedCity : Option SelectOption
  sent : List String
  deriving Repr

/-- The two directory requests: `GET /countries` and
`GET /countries/$(country)/cities`, the latter with the value interpolated
into the URL. -/
inductive Request
  | countries
  | cities (country : JSVal)
  deriving Repr

/-- A `fetch` the component has issued, and whether its promise chain has
settled yet. -/
structure Fetch where
  request : Request
  settled : Bool
  deriving Repr

/-- The `console.error` lines of the component, each with the error caught. -/
inductive LogEntry
  | errorFetchingCountries (e : JSError)
  | errorFetchingCities (e : JSError)
  | errorParsingJSON (e : JSError)
  deriving Repr

/-- The component together with what it has created in its host: the sockets
opened, the fetches issued and the console output. -/
structure World where
  app : AppState
  sockets : List Connection
  fetches : List Fetch
  console : List LogEntry
  deriving Repr

/-- The `useState` initial values (lines 7-12). -/
def initialState : AppState :=
  { weatherData := .arr [], countries := [], selectedCountry := none,
    cities := [], selectedCity := none, socket := none }

/-! ## Directory loader (lines 14-42) -/

/-- Lines 19-22: `data.map(country => (value: country, label: country))`;
`data.map` throws a `TypeError` unless `data` is an array. -/
def countryOptions (data : JSVal) : Except JSError (List SelectOption) :=
  match data with
  | .arr items => .ok (items.map fun country => { value := country, label := country })
  | _ => .error .typeError

/-- Lines 34-37, the callback on one element: `(value: city, label: city.city)`. -/
def cityOption (city : JSVal) : Except JSError SelectOption :=
  match getProp city "city" with
  | .ok label => .ok { value := city, label := label }
  | .error e => .error e

/-- The callback of lines 34-37 over the elements, in order; the first throw
aborts the whole `map`. -/
def cityOptionsOf : List JSVal → Except JSError (List SelectOption)
  | [] => .ok []
  | city :: rest =>
    match cityOption city with
    | .error e => .error e
    | .ok o =>
      match cityOptionsOf rest with
      | .error e => .error e
      | .ok os => .ok (o :: os)

/-- Lines 34-37: `data.map(city => ...)`. -/
def cityOptions (data : JSVal) : Except JSError (List SelectOption) :=
  match data with
  | .arr items => cityOptionsOf items
  | _ => .error .typeError

/-- Lines 16-25 once the promise chain settles. `outcome` is the result of
`fetch(...).then(response => response.json())`: the parsed body, or the
rejection. A success calls `setCountries`; any rejection or throw reaches
`.catch`, which logs. -/
def countriesSettled (outcome : Except JSError JSVal) (w : World) : World :=
  match outcome.bind countryOptions with
  | .ok options => { w with app := { w.app with countries := options } }
  | .error e => { w with console := w.console ++ [.errorFetchingCountries e] }

/-- Lines 31-40 once the promise chain settles: `setCities` on success,
`console.error` otherwise. -/
def citiesSettled (outcome : Except JSError JSVal) (w : World) : World :=
  match outcome.bind cityOptions with
  | .ok options => { w with app := { w.app with cities := options } }
  | .error e => { w with console := w.console ++ [.errorFetchingCities e] }

/-- The effect of lines 14-26 (runs once, on mount): issue the country fetch. -/
def countriesEffect (w : World) : World :=
  { w with fetches := w.fetches ++ [{ request := .countries, settled := false }] }

/-- The effect of lines 28-42 (runs when `selectedCountry` has changed): if a
country is selected, issue the city fetch for its `value`. -/
def countryEffect (w : World) : World :=
  match w.app.selectedCountry with
  | some country =>
    { w with fetches := w.fetches ++ [{ request := .cities country.value, settled := false }] }
  | none => w

/-! ## Live feed (lines 44-78) -/

/-- The method `close()` on a socket: a connecting or open socket starts
closing; on a closing or closed socket it does nothing. -/
def Connection.close (c : Connection) : Connection :=
  match c.readyState with
  | .CONNECTING => { c with readyState := .CLOSING }
  | .OPEN => { c with readyState := .CLOSING }
  | .CLOSING => c
  | .CLOSED => c

/-- Line 47, `socket.close()`, on the socket with index `id`. -/
def closeSocket (id : Nat) (w : World) : World :=
  { w with sockets := w.sockets.modify Connection.close id }

/-- Lines 53-78, `initiateWS`: create a socket whose listeners close over the
current `selectedCity`, then `setSocket(newSocket)`. -/
def initiateWS (w : World) : World :=
  { w with
    sockets := w.sockets ++
      [{ readyState := .CONNECTING, selectedCity := w.app.selectedCity, sent := [] }]
    app := { w.app with socket := some w.sockets.length } }

/-- The effect of lines 44-51 (runs when `selectedCity` has changed): if a city
is selected, close the socket the handle refers to, if any, and call
`initiateWS`. -/
def cityEffect (w : World) : World :=
  match w.app.selectedCity with
  | some _ =>
    match w.app.socket with
    | some id => initiateWS (closeSocket id w)
    | none => initiateWS w
  | none => w

/-- The argument of `newSocket.send` on line 59:
`JSON.stringify(selectedCity.value._id)`, for the `selectedCity` the listener
closed over. Reading `.value` of `null` or `._id` of `null`/`undefined` throws. -/
def subscribeFrame (captured : Option SelectOption) : Except JSError String :=
  match captured with
  | none => .error .typeError
  | some city =>
    match getProp city.value "_id" with
    | .ok id => .ok (sendText (stringify id))
    | .error e => .error e

/-- Lines 57-60, the `open` listener of socket `id`: send the subscribe frame.
A throw inside the listener leaves nothing sent. -/
def openListener (id : Nat) (w : World) : World :=
  match w.sockets[id]? with
  | none => w
  | some c =>
    match subscribeFrame c.selectedCity with
    | .ok frame =>
      { w with sockets := w.sockets.modify (fun c => { c with sent := c.sent ++ [frame] }) id }
    | .error _ => w

/-- Lines 63-70, the `message` listener. `parsed` is the outcome of
`JSON.parse(event.data)`. Inside `try`: read `jsonData.sources` and pass it to
`setWeatherData`; a throw is caught and logged. -/
def messageListener (parsed : Except JSError JSVal) (w : World) : World :=
  match parsed.bind (fun jsonData => getProp jsonData "sources") with
  | .ok sources => { w with app := { w.app with weatherData := sources } }
  | .error e => { w with console := w.console ++ [.errorParsingJSON e] }

/-- Lines 73-75, the `close` listener: `setSocket(null)`. -/
def closeListener (w : World) : World :=
  { w with app := { w.app with socket := none } }

/-- The host sets the ready state of socket `id`. -/
def setReadyState (id : Nat) (s : ReadyState) (w : World) : World :=
  { w with sockets := w.sockets.modify (fun c => { c with readyState := s }) id }

/-! ## Render (lines 80-130) -/

/-- Line 107, `selectedCity && weatherData.length > 0 && ...`, up to the member
access: `none` when `selectedCity` is `null` (the guard short-circuits), else
the value of `weatherData.length`, or the `TypeError` it throws. -/
def renderLength (st : AppState) : Except JSError (Option JSVal) :=
  match st.selectedCity with
  | none => .ok none
  | some _ =>
    match getProp st.weatherData "length" with
    | .ok n => .ok (some n)
    | .error e => .error e

/-! ## Events -/

/-- What can happen to the mounted component. A selection event is a call of
the dropdown's `onChange` that changes the state cell, so that the effect
depending on the cell runs. -/
inductive Event
  | fetchSettled (i : Nat) (outcome : Except JSError JSVal)
  | pickCountry (option : SelectOption)
  | pickCity (option : SelectOption)
  | wsOpen (id : Nat)
  | wsMessage (id : Nat) (parsed : Except JSError JSVal)
  | wsClose (id : Nat)

/-- The component after mount: the initial state with the three effects run
once (only the first does anything, as nothing is selected). -/
def mount : World :=
  cityEffect (countryEffect (countriesEffect
    { app := initialState, sockets := [], fetches := [], console := [] }))

/-- Line 88, `onChange=(setSelectedCountry)`, followed by the effect on
`selectedCountry`. -/
def pickCountry (option : SelectOption) (w : World) : World :=
  countryEffect { w with app := { w.app with selectedCountry := some option } }

/-- Line 98, `onChange=(setSelectedCity)`, followed by the effect on
`selectedCity`. -/
def pickCity (option : SelectOption) (w : World) : World :=
  cityEffect { w with app := { w.app with selectedCity := some option } }

/-- One event. The result is `none` when the host cannot deliver the event:
a fetch settles once; `open` fires on a connecting socket, `message` on an
open one, `close` on one that is not closed yet. -/
def handle (w : World) : Event → Option World
  | .fetchSettled i outcome =>
    match w.fetches[i]? with
    | none => none
    | some f =>
      if f.settled then none
      else
        let w1 := { w with fetches := w.fetches.set i { f with settled := true } }
        match f.request with
        | .countries => some (countriesSettled outcome w1)
        | .cities _ => some (citiesSettled outcome w1)
  | .pickCountry option => some (pickCountry option w)
  | .pickCity option => some (pickCity option w)
  | .wsOpen id =>
    match w.sockets[id]? with
    | none => none
    | some c =>
      if c.readyState = .CONNECTING then some (openListener id (setReadyState id .OPEN w))
      else none
  | .wsMessage id parsed =>
    match w.sockets[id]? with
    | none => none
    | some c =>
      if c.readyState = .OPEN then some (messageListener parsed w) else none
  | .wsClose id =>
    match w.sockets[id]? with
    | none => none
    | some c =>
      if c.readyState = .CLOSED then none
      else some (closeListener (setReadyState id .CLOSED w))

/-- A sequence of events, in order, delivered to the handlers whether or not
the rendered page would enable them (see `uiEnabled`). -/
def run (w : World) : List Event → Option World
  | [] => some w
  | e :: es =>
    match handle w e with
    | none => none
    | some w1 => run w1 es

/-- What the rendered page lets the user do (lines 85-104): the country
dropdown is disabled once a city is selected (`isDisabled=(!!selectedCity)`);
the city dropdown is rendered only while a country is selected and is disabled
once a city is selected. Host events are not gated. -/
def uiEnabled (w : World) : Event → Bool
  | .pickCountry _ => w.app.selectedCity.isNone
  | .pickCity _ => w.app.selectedCountry.isSome && w.app.selectedCity.isNone
  | _ => true

/-- States the mounted component can reach when selections are made through
the rendered dropdowns. The component is followed as if it stayed mounted
after every event; the unmount React performs when a render throws is part of
`Page.deliver`. -/
inductive Reachable : World → Prop
  | mount : Reachable mount
  | step (w : World) (e : Event) (w1 : World) :
      Reachable w → uiEnabled w e = true → handle w e = some w1 → Reachable w1

/-- A socket that is connecting or open. -/
def Connection.isLive (c : Connection) : Bool :=
  match c.readyState with
  | .CONNECTING => true
  | .OPEN => true
  | .CLOSING => false
  | .CLOSED => false

/-! ## The page -/

/-- Does the render (lines 80-130) throw? Of its possible throws, the one of
line 107 is modelled: reading `weatherData.length` while a city is selected. -/
def renderThrows (st : AppState) : Bool :=
  match renderLength st with
  | .ok _ => false
  | .error _ => true

/-- The page as the host sees it: the state of `App` while it is mounted
(`none` once React has unmounted the tree), and what the host holds either
way: the sockets created, the fetches issued, the console. -/
structure Page where
  component : Option AppState
  sockets : List Connection
  fetches : List Fetch
  console : List LogEntry
  deriving Repr

/-- React renders the new state. A render that throws unmounts the tree, as
no error boundary is installed: the state cells are dropped. None of the three
effects returns a cleanup function (lines 14-51), so nothing else runs at
unmount: the sockets stay as they are. -/
def Page.ofWorld (w : World) : Page :=
  { component := if renderThrows w.app then none else some w.app
    sockets := w.sockets
    fetches := w.fetches
    console := w.console }

/-- The component state `st` together with what the host holds. -/
def Page.world (p : Page) (st : AppState) : World :=
  { app := st, sockets := p.sockets, fetches := p.fetches, console := p.console }

/-- What the host holds in `w`, with no component. -/
def Page.unmounted (w : World) : Page :=
  { component := none, sockets := w.sockets, fetches := w.fetches, console := w.console }

/-- One event on the page. While `App` is mounted, an event is delivered only
if the rendered page enables it (`uiEnabled`); the handlers run and React
renders. Once the tree is unmounted there are no dropdowns left; host events
still reach the listeners, whose state setters do nothing, so the listeners run
against a scratch state that is discarded. -/
def Page.deliver (p : Page) (e : Event) : Option Page :=
  match p.component with
  | some st =>
    if uiEnabled (p.world st) e then
      match handle (p.world st) e with
      | some w1 => some (Page.ofWorld w1)
      | none => none
    else none
  | none =>
    match e with
    | .pickCountry _ => none
    | .pickCity _ => none
    | _ =>
      match handle (p.world initialState) e with
      | some w1 => some (Page.unmounted w1)
      | none => none

/-- The page after the first render. -/
def Page.mount : Page := Page.ofWorld Weather.mount

/-- A sequence of events on the page, in order. -/
def Page.run (p : Page) : List Event → Option Page
  | [] => some p
  | e :: es =>
    match Page.deliver p e with
    | none => none
    | some p1 => Page.run p1 es

/-- The states of the page the host and the user can bring about. -/
inductive Page.Reachable : Page → Prop
  | mount : Page.Reachable Page.mount
  | step (p : Page) (e : Event) (p1 : Page) :
      Page.Reachable p → Page.deliver p e = some p1 → Page.Reachable p1

/-! ## Example data -/

/-- A city record as the directory serves it, identified by `_id`. -/
def rome : JSVal :=
  .obj [("_id", .str "r1"), ("city", .str "Rome"), ("country", .str "Italy")]

/-- The dropdown entry `cityOption` builds for `rome`. -/
def romeOption : SelectOption := { value := rome, label := .str "Rome" }

/-- The dropdown entry for a second city, Milan. -/
def milanOption : SelectOption :=
  { value := .obj [("_id", .str "m1"), ("city", .str "Milan"), ("country", .str "Italy")],
    label := .str "Milan" }

/-- The dropdown entry for the country Italy. -/
def italyOption : SelectOption := { value := .str "Italy", label := .str "Italy" }

/-- The dropdown entry for the country France. -/
def franceOption : SelectOption := { value := .str "France", label := .str "France" }

/-- One reading, as in a pushed frame. -/
def owmReading : JSVal :=
  .obj [("source", .str "owm"), ("temp", .num "21.5"), ("feels_like", .num "21"),
        ("temp_min", .num "19"), ("temp_max", .num "24"), ("pressure", .num "1012"),
        ("humidity", .num "55"), ("pred_weather_next_hr", .num "22")]

/-- A world in which Italy and Rome are selected and the feed socket is open,
showing one earlier reading. -/
def feedOpen : World :=
  { app := { weatherData := .arr [owmReading], countries := [italyOption],
             selectedCountry := some italyOption, cities := [romeOption],
             selectedCity := some romeOption, socket := some 0 }
    sockets := [{ readyState := .OPEN, selectedCity := some romeOption, sent := ["\"r1\""] }]
    fetches := [{ request := .countries, settled := true },
                { request := .cities (.str "Italy"), settled := true }]
    console := [] }

/-! ## Notions used in the statements -/

/-- Is the event the `open` event of socket `id`? -/
def Event.isOpenOf (id : Nat) : Event → Bool
  | .wsOpen j => j == id
  | _ => false

/-- Is the event a city selection? -/
def Event.isPickCity : Event → Bool
  | .pickCity _ => true
  | _ => false

/-- The frames the `open` listener sends for a captured selection: the
subscribe frame, or nothing when building it throws. -/
def openFrames (captured : Option SelectOption) : List String :=
  match subscribeFrame captured with
  | .ok frame => [frame]
  | .error _ => []

/-- Is the event the `close` event of some socket? -/
def Event.isClose : Event → Bool
  | .wsClose _ => true
  | _ => false

/-- A city record shaped as the specification's data model names it, with the
identifier under `id`. -/
def romeById : JSVal :=
  .obj [("id", .str "r1"), ("city", .str "Rome"), ("country", .str "Italy")]

/-- The invariant of the handle in the states the page allows: at most one
socket was ever created, none before a city is selected; a socket is live
exactly when the handle refers to it, none is closing (`close()` is never
called), and its listeners closed over the selected city; the handle refers to
an existing socket. -/
def HandleInv (w : World) : Prop :=
  w.sockets.length ≤ 1
  ∧ (w.app.selectedCity = none → w.sockets = [] ∧ w.app.socket = none)
  ∧ (∀ (id : Nat) (c : Connection), w.sockets[id]? = some c →
      (c.isLive = true ↔ w.app.socket = some id) ∧ c.readyState ≠ .CLOSING
      ∧ c.selectedCity = w.app.selectedCity)
  ∧ (∀ id : Nat, w.app.socket = some id → id < w.sockets.length)

/-- The invariant of the page: while `App` is mounted, `HandleInv`; once it is
unmounted, still at most one socket, and none closing. -/
def PageInv (p : Page) : Prop :=
  match p.component with
  | some st => HandleInv (p.world st)
  | none =>
    p.sockets.length ≤ 1
    ∧ ∀ (id : Nat) (c : Connection), p.sockets[id]? = some c → c.readyState ≠ .CLOSING

/-- The options the promise chain of a request computes from the outcome of
the fetch, or the error that reaches `.catch`. -/
def Request.options (r : Request) (outcome : Except JSError JSVal) :
    Except JSError (List SelectOption) :=
  match r with
  | .countries => outcome.bind countryOptions
  | .cities _ => outcome.bind cityOptions

/-- The `console.error` line of a request's `.catch`. -/
def Request.logEntry (r : Request) (e : JSError) : LogEntry :=
  match r with
  | .countries => .errorFetchingCountries e
  | .cities _ => .errorFetchingCities e

/-- Is the request the country request? -/
def Request.isCountries : Request → Bool
  | .countries => true
  | .cities _ => false

/-- The country request is the first fetch and the only one of its kind, and
`countries` is empty as long as it has not settled. -/
def CountriesInv (w : World) : Prop :=
  ∀ (i : Nat) (f : Fetch), w.fetches[i]? = some f → f.request.isCountries = true →
    i = 0 ∧ (f.settled = false → w.app.countries = [])

/-! ## Properties -/

/-- C1: a frame delivered on an open socket whose text parses to an object
with an array under `sources` makes the message listener set `weatherData` to
exactly that array (same elements, same order), whatever `weatherData` held
before; nothing else in the world changes. -/
theorem message_sets_weatherData_to_sources (w : World) (id : Nat) (c : Connection)
    (props : List (String × JSVal)) (sources : List JSVal)
    (hc : w.sockets[id]? = some c) (hopen : c.readyState = .OPEN)
    (hsrc : getProp (.obj props) "sources" = .ok (.arr sources)) :
    handle w (.wsMessage id (.ok (.obj props)))
      = some { w with app := { w.app with weatherData := .arr sources } } := by
  simp only [getProp, Except.ok.injEq] at hsrc
  simp [handle, hc, hopen, messageListener, Except.bind, getProp, hsrc]

/-- C1, instance: with the feed open and one reading shown, a frame carrying an
empty `sources` array empties the displayed list. -/
theorem message_sets_weatherData_to_sources_witness :
    feedOpen.sockets[0]? = some { readyState := .OPEN, selectedCity := some romeOption, sent := ["\"r1\""] }
    ∧ getProp (.obj [("sources", .arr [])]) "sources" = .ok (.arr [])
    ∧ handle feedOpen (.wsMessage 0 (.ok (.obj [("sources", .arr [])])))
      = some { feedOpen with app := { feedOpen.app with weatherData := .arr [] } } :=
  ⟨rfl, rfl, message_sets_weatherData_to_sources feedOpen 0 _ _ _ rfl rfl rfl⟩

/-- C2: a frame delivered on an open socket whose text fails to parse leaves
the component state, `weatherData` included, exactly as it was; the listener
only logs the error. -/
theorem unparseable_message_keeps_state (w : World) (id : Nat) (c : Connection) (e : JSError)
    (hc : w.sockets[id]? = some c) (hopen : c.readyState = .OPEN) :
    ∃ w1, handle w (.wsMessage id (.error e)) = some w1
      ∧ w1.app = w.app ∧ w1.app.weatherData = w.app.weatherData
      ∧ w1.sockets = w.sockets ∧ w1.fetches = w.fetches
      ∧ w1.console = w.console ++ [.errorParsingJSON e] := by
  refine ⟨{ w with console := w.console ++ [.errorParsingJSON e] }, ?_, rfl, rfl, rfl, rfl, rfl⟩
  simp [handle, hc, hopen, messageListener, Except.bind]

/-- C2, instance: with the feed open and one reading shown, a frame that is not
JSON changes nothing but the console. -/
theorem unparseable_message_keeps_state_witness :
    ∃ w1, handle feedOpen (.wsMessage 0 (.error .syntaxError)) = some w1
      ∧ w1.app = feedOpen.app ∧ w1.app.weatherData = feedOpen.app.weatherData
      ∧ w1.sockets = feedOpen.sockets ∧ w1.fetches = feedOpen.fetches
      ∧ w1.console = feedOpen.console ++ [.errorParsingJSON .syntaxError] :=
  unparseable_message_keeps_state feedOpen 0 _ .syntaxError rfl rfl

/-- The callback of lines 34-37 never throws on objects. -/
theorem cityOptionsOf_objects (records : List (List (String × JSVal))) :
    cityOptionsOf (records.map JSVal.obj)
      = .ok (records.map fun r => { value := .obj r, label := lookupProp r "city" }) := by
  induction records with
  | nil => rfl
  | cons r rest ih => simp [cityOptionsOf, cityOption, getProp, ih]

/-- C4: when the country fetch succeeds with the array `names`, the country
dropdown options become the list with one entry per name, in the same order,
the entry at each position having that name as `value` and as `label`. -/
theorem country_options_mirror_fetched_list (w : World) (i : Nat) (names : List JSVal)
    (hf : w.fetches[i]? = some { request := .countries, settled := false }) :
    ∃ w1, handle w (.fetchSettled i (.ok (.arr names))) = some w1
      ∧ w1.app.countries = names.map (fun n => { value := n, label := n })
      ∧ w1.app.countries.length = names.length
      ∧ ∀ j : Nat, (w1.app.countries[j]?).map (fun (o : SelectOption) => (o.value, o.label))
              = (names[j]?).map (fun n => (n, n)) := by
  have h : handle w (.fetchSettled i (.ok (.arr names)))
      = some (countriesSettled (.ok (.arr names))
          { w with fetches := w.fetches.set i { request := .countries, settled := true } }) := by
    simp [handle, hf]
  refine ⟨_, h, ?_, ?_, ?_⟩
  · simp [countriesSettled, Except.bind, countryOptions]
  · simp [countriesSettled, Except.bind, countryOptions]
  · intro j
    simp only [countriesSettled, Except.bind, countryOptions, List.getElem?_map]
    cases names[j]? <;> rfl

/-- C4, instance: the country fetch issued at mount answers Italy, France, Italy;
the three options appear in that order, the repeated name included. -/
theorem country_options_mirror_fetched_list_witness :
    mount.fetches[0]? = some { request := .countries, settled := false }
    ∧ ∃ w1, handle mount (.fetchSettled 0 (.ok (.arr [.str "Italy", .str "France", .str "Italy"])))
        = some w1
      ∧ w1.app.countries = [.str "Italy", .str "France", .str "Italy"].map
          (fun n => { value := n, label := n })
      ∧ w1.app.countries.length = [JSVal.str "Italy", .str "France", .str "Italy"].length
      ∧ ∀ j : Nat, (w1.app.countries[j]?).map (fun (o : SelectOption) => (o.value, o.label))
              = ([JSVal.str "Italy", .str "France", .str "Italy"][j]?).map (fun n => (n, n)) :=
  ⟨rfl, country_options_mirror_fetched_list mount 0 _ rfl⟩

/-- C5: when a city fetch for the selected country succeeds with an array of
city records, the city dropdown options become the list with one entry per
record, in the same order, the entry at each position having the record's
`city` member as `label` and the whole record as `value`. -/
theorem city_options_mirror_fetched_records (w : World) (i : Nat) (country : JSVal)
    (records : List (List (String × JSVal)))
    (hf : w.fetches[i]? = some { request := .cities country, settled := false }) :
    ∃ w1, handle w (.fetchSettled i (.ok (.arr (records.map JSVal.obj)))) = some w1
      ∧ w1.app.cities = records.map (fun r => { value := .obj r, label := lookupProp r "city" })
      ∧ w1.app.cities.length = records.length
      ∧ ∀ j : Nat, (w1.app.cities[j]?).map (fun (o : SelectOption) => (o.value, o.label))
              = (records[j]?).map (fun r => (JSVal.obj r, lookupProp r "city")) := by
  have h : handle w (.fetchSettled i (.ok (.arr (records.map JSVal.obj))))
      = some (citiesSettled (.ok (.arr (records.map JSVal.obj)))
          { w with fetches := w.fetches.set i { request := .cities country, settled := true } }) := by
    simp [handle, hf]
  refine ⟨_, h, ?_, ?_, ?_⟩
  · simp [citiesSettled, Except.bind, cityOptions, cityOptionsOf_objects]
  · simp [citiesSettled, Except.bind, cityOptions, cityOptionsOf_objects]
  · intro j
    simp only [citiesSettled, Except.bind, cityOptions, cityOptionsOf_objects, List.getElem?_map]
    cases records[j]? <;> rfl

/-- C5, instance: after Italy is selected, its city fetch answers one record for
Rome. -/
theorem city_options_mirror_fetched_records_witness :
    (pickCountry italyOption mount).fetches[1]?
      = some { request := .cities (.str "Italy"), settled := false }
    ∧ ∃ w1, handle (pickCountry italyOption mount)
          (.fetchSettled 1 (.ok (.arr ([[("_id", .str "r1"), ("city", .str "Rome")]].map JSVal.obj))))
        = some w1
      ∧ w1.app.cities = [[("_id", JSVal.str "r1"), ("city", JSVal.str "Rome")]].map
          (fun r => { value := .obj r, label := lookupProp r "city" })
      ∧ w1.app.cities.length = [[("_id", JSVal.str "r1"), ("city", JSVal.str "Rome")]].length
      ∧ ∀ j : Nat, (w1.app.cities[j]?).map (fun (o : SelectOption) => (o.value, o.label))
              = ([[("_id", JSVal.str "r1"), ("city", JSVal.str "Rome")]][j]?).map
                  (fun r => (JSVal.obj r, lookupProp r "city")) :=
  ⟨rfl, city_options_mirror_fetched_records (pickCountry italyOption mount) 1 _ _ rfl⟩

/-! ### Selection state -/

/-- Settling a country fetch touches only `countries` and the console. -/
theorem countriesSettled_frame (outcome : Except JSError JSVal) (w : World) :
    (countriesSettled outcome w).app.selectedCountry = w.app.selectedCountry
    ∧ (countriesSettled outcome w).app.selectedCity = w.app.selectedCity
    ∧ (countriesSettled outcome w).app.socket = w.app.socket
    ∧ (countriesSettled outcome w).app.cities = w.app.cities
    ∧ (countriesSettled outcome w).app.weatherData = w.app.weatherData
    ∧ (countriesSettled outcome w).sockets = w.sockets
    ∧ (countriesSettled outcome w).fetches = w.fetches := by
  unfold countriesSettled
  split <;> simp

/-- Settling a city fetch touches only `cities` and the console. -/
theorem citiesSettled_frame (outcome : Except JSError JSVal) (w : World) :
    (citiesSettled outcome w).app.selectedCountry = w.app.selectedCountry
    ∧ (citiesSettled outcome w).app.selectedCity = w.app.selectedCity
    ∧ (citiesSettled outcome w).app.socket = w.app.socket
    ∧ (citiesSettled outcome w).app.countries = w.app.countries
    ∧ (citiesSettled outcome w).app.weatherData = w.app.weatherData
    ∧ (citiesSettled outcome w).sockets = w.sockets
    ∧ (citiesSettled outcome w).fetches = w.fetches := by
  unfold citiesSettled
  split <;> simp

/-- The `open` listener leaves the component state alone. -/
theorem openListener_app (id : Nat) (w : World) : (openListener id w).app = w.app := by
  unfold openListener
  split
  · rfl
  · split <;> rfl

/-- The `message` listener touches only `weatherData` and the console. -/
theorem messageListener_frame (parsed : Except JSError JSVal) (w : World) :
    (messageListener parsed w).app.selectedCountry = w.app.selectedCountry
    ∧ (messageListener parsed w).app.selectedCity = w.app.selectedCity
    ∧ (messageListener parsed w).app.socket = w.app.socket
    ∧ (messageListener parsed w).app.countries = w.app.countries
    ∧ (messageListener parsed w).app.cities = w.app.cities
    ∧ (messageListener parsed w).sockets = w.sockets
    ∧ (messageListener parsed w).fetches = w.fetches := by
  unfold messageListener
  split <;> simp

/-- The country effect only issues a fetch. -/
theorem countryEffect_frame (w : World) :
    (countryEffect w).app = w.app ∧ (countryEffect w).sockets = w.sockets := by
  unfold countryEffect
  split <;> simp

/-- What one event does to the two selection cells: a pick sets its own cell,
every other event leaves both alone. -/
theorem handle_selection (w w1 : World) (e : Event) (h : handle w e = some w1) :
    (w1.app.selectedCountry = w.app.selectedCountry ∨ ∃ o, e = .pickCountry o ∧ w1.app.selectedCountry = some o)
    ∧ (w1.app.selectedCity = w.app.selectedCity ∨ ∃ o, e = .pickCity o ∧ w1.app.selectedCity = some o) := by
  cases e with
  | fetchSettled i outcome =>
    simp only [handle] at h
    split at h
    · simp at h
    · split at h
      · simp at h
      · split at h <;>
        · simp only [Option.some.injEq] at h
          subst h
          simp [countriesSettled_frame, citiesSettled_frame]
  | pickCountry o =>
    simp only [handle, Option.some.injEq] at h
    subst h
    simp [pickCountry, (countryEffect_frame _).1]
  | pickCity o =>
    simp only [handle, Option.some.injEq] at h
    subst h
    refine ⟨Or.inl ?_, Or.inr ⟨o, rfl, ?_⟩⟩ <;>
    · simp only [pickCity, cityEffect]
      split <;> rfl
  | wsOpen id =>
    simp only [handle] at h
    split at h
    · simp at h
    · split at h
      · simp only [Option.some.injEq] at h
        subst h
        simp [openListener_app, setReadyState]
      · simp at h
  | wsMessage id parsed =>
    simp only [handle] at h
    split at h
    · simp at h
    · split at h
      · simp only [Option.some.injEq] at h
        subst h
        simp [messageListener_frame]
      · simp at h
  | wsClose id =>
    simp only [handle] at h
    split at h
    · simp at h
    · split at h
      · simp at h
      · simp only [Option.some.injEq] at h
        subst h
        simp [closeListener, setReadyState]

/-- C10: in every state the mounted component reaches through the events the
rendered page enables, a city is selected only if a country is selected, so the
selection is in exactly one of the three phases: no country (and no city), a
country and no city, a country and a city. -/
theorem selectedCity_requires_selectedCountry (w : World) (h : Reachable w) :
    (w.app.selectedCity.isSome = true → w.app.selectedCountry.isSome = true)
    ∧ ((w.app.selectedCountry = none ∧ w.app.selectedCity = none)
        ∨ (w.app.selectedCountry.isSome = true ∧ w.app.selectedCity = none)
        ∨ (w.app.selectedCountry.isSome = true ∧ w.app.selectedCity.isSome = true)) := by
  have key : w.app.selectedCity.isSome = true → w.app.selectedCountry.isSome = true := by
    induction h with
    | mount => intro hc; simp [mount, cityEffect, countryEffect, countriesEffect, initialState] at hc
    | step w e w1 _ hen hstep ih =>
      obtain ⟨hco, hci⟩ := handle_selection w w1 e hstep
      intro hc
      rcases hco with hco | ⟨o, _, hco⟩
      · rcases hci with hci | ⟨o, he, _⟩
        · rw [hco]; rw [hci] at hc; exact ih hc
        · subst he
          rw [hco]
          simp only [uiEnabled, Bool.and_eq_true] at hen
          exact hen.1
      · simp [hco]
  refine ⟨key, ?_⟩
  cases hci : w.app.selectedCity with
  | none =>
    cases hco : w.app.selectedCountry with
    | none => exact Or.inl ⟨rfl, rfl⟩
    | some c => exact Or.inr (Or.inl ⟨rfl, rfl⟩)
  | some c =>
    have := key (by simp [hci])
    exact Or.inr (Or.inr ⟨this, rfl⟩)

/-- C10, instance: the state reached by selecting Italy and then Rome. -/
theorem selectedCity_requires_selectedCountry_witness :
    Reachable (pickCity romeOption (pickCountry italyOption mount))
    ∧ ((pickCity romeOption (pickCountry italyOption mount)).app.selectedCity.isSome = true →
        (pickCity romeOption (pickCountry italyOption mount)).app.selectedCountry.isSome = true) :=
  have hr : Reachable (pickCity romeOption (pickCountry italyOption mount)) :=
    .step _ (.pickCity romeOption) _
      (.step _ (.pickCountry italyOption) _ .mount rfl rfl) rfl rfl
  ⟨hr, (selectedCity_requires_selectedCountry _ hr).1⟩

/-! ### Connections -/

theorem getElem?_modify_some {α : Type} (f : α → α) (l : List α) (n m : Nat) (a : α)
    (h : l[m]? = some a) : (l.modify f n)[m]? = some (if n = m then f a else a) := by
  rw [List.getElem?_modify, h]
  rfl

theorem getElem?_append_some {α : Type} (l r : List α) (m : Nat) (a : α)
    (h : l[m]? = some a) : (l ++ r)[m]? = some a := by
  have hlt : m < l.length := by
    by_contra hge
    rw [List.getElem?_eq_none (by omega)] at h
    cases h
  rw [List.getElem?_append_left hlt, h]

/-- `close()` keeps the closure and the frames, and never yields a connecting
socket. -/
theorem Connection.close_spec (c : Connection) :
    c.close.selectedCity = c.selectedCity ∧ c.close.sent = c.sent
    ∧ (c.close.readyState = .CLOSING ∨ c.close.readyState = .CLOSED) := by
  unfold Connection.close
  split <;> simp_all

/-- The life of one socket under one event, case by case: its `open` event,
possible only while it is connecting, opens it and sends the frames of the
`open` listener; its `close` event marks it closed; a city selection made while
the handle refers to it calls `close()` on it; everything else leaves it as it
was. -/
theorem socket_step_cases (w w1 : World) (e : Event) (k : Nat) (c : Connection)
    (h : handle w e = some w1) (hc : w.sockets[k]? = some c) :
    ∃ c1, w1.sockets[k]? = some c1
      ∧ ((e.isOpenOf k = true ∧ c.readyState = .CONNECTING
            ∧ c1 = { c with readyState := .OPEN, sent := c.sent ++ openFrames c.selectedCity })
         ∨ (e.isOpenOf k = false ∧ e = .wsClose k ∧ c1 = { c with readyState := .CLOSED })
         ∨ (e.isOpenOf k = false ∧ e.isPickCity = true ∧ w.app.socket = some k ∧ c1 = c.close)
         ∨ (e.isOpenOf k = false ∧ e ≠ .wsClose k ∧ c1 = c)) := by
  cases e with
  | fetchSettled i outcome =>
    simp only [handle] at h
    split at h
    · simp at h
    · split at h
      · simp at h
      · split at h <;>
        · simp only [Option.some.injEq] at h
          subst h
          simp [countriesSettled_frame, citiesSettled_frame, hc, Event.isOpenOf]
  | pickCountry o =>
    simp only [handle, Option.some.injEq] at h
    subst h
    simp [pickCountry, (countryEffect_frame _).2, hc, Event.isOpenOf]
  | pickCity o =>
    simp only [handle, Option.some.injEq] at h
    subst h
    simp only [pickCity, cityEffect]
    split
    · rename_i id hsock
      by_cases hid : id = k
      · subst hid
        refine ⟨c.close, ?_, Or.inr (Or.inr (Or.inl ⟨rfl, rfl, hsock, rfl⟩))⟩
        simp only [initiateWS, closeSocket]
        refine getElem?_append_some _ _ _ _ ?_
        rw [getElem?_modify_some _ _ _ _ _ hc]
        simp
      · refine ⟨c, ?_, Or.inr (Or.inr (Or.inr ⟨rfl, by simp, rfl⟩))⟩
        simp only [initiateWS, closeSocket]
        refine getElem?_append_some _ _ _ _ ?_
        rw [getElem?_modify_some _ _ _ _ _ hc]
        simp [hid]
    · refine ⟨c, ?_, Or.inr (Or.inr (Or.inr ⟨rfl, by simp, rfl⟩))⟩
      simp only [initiateWS]
      exact getElem?_append_some _ _ _ _ hc
  | wsOpen id =>
    simp only [handle] at h
    split at h
    · simp at h
    · rename_i c0 hc0
      split at h
      · rename_i hconn
        simp only [Option.some.injEq] at h
        subst h
        by_cases hid : id = k
        · subst hid
          rw [hc] at hc0
          cases hc0
          have h1 : (setReadyState id .OPEN w).sockets[id]?
              = some { c with readyState := .OPEN } := by
            simp only [setReadyState]
            rw [getElem?_modify_some _ _ _ _ _ hc]
            simp
          refine ⟨{ c with readyState := .OPEN, sent := c.sent ++ openFrames c.selectedCity },
            ?_, Or.inl ⟨by simp [Event.isOpenOf], hconn, rfl⟩⟩
          unfold openListener
          rw [h1]
          simp only [openFrames]
          split
          · rw [getElem?_modify_some _ _ _ _ _ h1]
            simp
          · rw [h1]
            simp
        · have h1 : (setReadyState id .OPEN w).sockets[k]? = some c := by
            simp only [setReadyState]
            rw [getElem?_modify_some _ _ _ _ _ hc]
            simp [hid]
          refine ⟨c, ?_, Or.inr (Or.inr (Or.inr ⟨by simp [Event.isOpenOf, hid], by simp, rfl⟩))⟩
          unfold openListener
          split
          · exact h1
          · split
            · rw [getElem?_modify_some _ _ _ _ _ h1]
              simp [hid]
            · exact h1
      · simp at h
  | wsMessage id parsed =>
    simp only [handle] at h
    split at h
    · simp at h
    · split at h
      · simp only [Option.some.injEq] at h
        subst h
        simp [messageListener_frame, hc, Event.isOpenOf]
      · simp at h
  | wsClose id =>
    simp only [handle] at h
    split at h
    · simp at h
    · split at h
      · simp at h
      · simp only [Option.some.injEq] at h
        subst h
        by_cases hid : id = k
        · subst hid
          refine ⟨{ c with readyState := .CLOSED }, ?_, Or.inr (Or.inl ⟨rfl, rfl, rfl⟩)⟩
          simp only [closeListener, setReadyState]
          rw [getElem?_modify_some _ _ _ _ _ hc]
          simp
        · refine ⟨c, ?_, Or.inr (Or.inr (Or.inr ⟨rfl, by simp [hid], rfl⟩))⟩
          simp only [closeListener, setReadyState]
          rw [getElem?_modify_some _ _ _ _ _ hc]
          simp [hid]

/-- The life of one socket under one event, in short: only its `open` event
adds frames; any other event leaves its ready state alone or moves it to
closing or closed. The closure never changes. -/
theorem socket_step (w w1 : World) (e : Event) (k : Nat) (c : Connection)
    (h : handle w e = some w1) (hc : w.sockets[k]? = some c) :
    ∃ c1, w1.sockets[k]? = some c1 ∧ c1.selectedCity = c.selectedCity
      ∧ ((e.isOpenOf k = true ∧ c.readyState = .CONNECTING ∧ c1.readyState = .OPEN
            ∧ c1.sent = c.sent ++ openFrames c.selectedCity)
         ∨ (e.isOpenOf k = false ∧ c1.sent = c.sent
            ∧ (c1.readyState = c.readyState ∨ c1.readyState = .CLOSING
                ∨ c1.readyState = .CLOSED))) := by
  obtain ⟨c1, hc1, hcase⟩ := socket_step_cases w w1 e k c h hc
  refine ⟨c1, hc1, ?_⟩
  rcases hcase with ⟨he, hconn, rfl⟩ | ⟨he, _, rfl⟩ | ⟨he, _, _, rfl⟩ | ⟨he, _, rfl⟩
  · exact ⟨rfl, Or.inl ⟨he, hconn, rfl, rfl⟩⟩
  · exact ⟨rfl, Or.inr ⟨he, rfl, Or.inr (Or.inr rfl)⟩⟩
  · exact ⟨(Connection.close_spec c).1, Or.inr ⟨he, (Connection.close_spec c).2.1,
      Or.inr (Connection.close_spec c).2.2⟩⟩
  · exact ⟨rfl, Or.inr ⟨he, rfl, Or.inl rfl⟩⟩

/-- What an event other than a city selection does to the handle and to the
number of sockets: a `close` event clears the handle, whichever socket it
comes from; nothing else touches the handle; no socket is created. -/
theorem handle_socket_cell (w w1 : World) (e : Event) (h : handle w e = some w1)
    (hnp : e.isPickCity = false) :
    w1.sockets.length = w.sockets.length
    ∧ w1.app.socket = (if e.isClose = true then none else w.app.socket)
    ∧ ∀ id, e = .wsClose id → id < w.sockets.length := by
  cases e with
  | fetchSettled i outcome =>
    simp only [handle] at h
    split at h
    · simp at h
    · split at h
      · simp at h
      · split at h <;>
        · simp only [Option.some.injEq] at h
          subst h
          simp [countriesSettled_frame, citiesSettled_frame, Event.isClose]
  | pickCountry o =>
    simp only [handle, Option.some.injEq] at h
    subst h
    simp [pickCountry, countryEffect_frame, Event.isClose]
  | pickCity o => simp [Event.isPickCity] at hnp
  | wsOpen id =>
    simp only [handle] at h
    split at h
    · simp at h
    · split at h
      · simp only [Option.some.injEq] at h
        subst h
        refine ⟨?_, by simp [openListener_app, setReadyState, Event.isClose]⟩
        unfold openListener
        split
        · simp [setReadyState]
        · split <;> simp [setReadyState]
      · simp at h
  | wsMessage id parsed =>
    simp only [handle] at h
    split at h
    · simp at h
    · split at h
      · simp only [Option.some.injEq] at h
        subst h
        simp [messageListener_frame, Event.isClose]
      · simp at h
  | wsClose id =>
    simp only [handle] at h
    split at h
    · simp at h
    · split at h
      · simp at h
      · rename_i c0 hc0 _
        simp only [Option.some.injEq] at h
        subst h
        refine ⟨by simp [closeListener, setReadyState],
          by simp [closeListener, setReadyState, Event.isClose], ?_⟩
        intro j hj
        cases hj
        by_contra hge
        rw [List.getElem?_eq_none (by omega)] at hc0
        cases hc0

/-- The life of one socket under a sequence of events: its frames grow by the
frames of the `open` listener exactly when its `open` event is among the
events, which requires it to be connecting at the start. -/
theorem socket_run (k : Nat) (es : List Event) :
    ∀ (w w1 : World) (c : Connection), run w es = some w1 → w.sockets[k]? = some c →
      ∃ c1, w1.sockets[k]? = some c1 ∧ c1.selectedCity = c.selectedCity
        ∧ ((es.any (Event.isOpenOf k) = true ∧ c.readyState = .CONNECTING
              ∧ c1.sent = c.sent ++ openFrames c.selectedCity
              ∧ c1.readyState ≠ .CONNECTING)
           ∨ (es.any (Event.isOpenOf k) = false ∧ c1.sent = c.sent
              ∧ (c1.readyState = .CONNECTING → c.readyState = .CONNECTING))) := by
  induction es with
  | nil =>
    intro w w1 c hrun hc
    simp only [run, Option.some.injEq] at hrun
    subst hrun
    exact ⟨c, hc, rfl, Or.inr ⟨rfl, rfl, id⟩⟩
  | cons e es ih =>
    intro w w1 c hrun hc
    simp only [run] at hrun
    split at hrun
    · simp at hrun
    · rename_i w2 hstep
      obtain ⟨c2, hc2, hcity2, hcase⟩ := socket_step w w2 e k c hstep hc
      obtain ⟨c1, hc1, hcity1, hrest⟩ := ih w2 w1 c2 hrun hc2
      refine ⟨c1, hc1, hcity1.trans hcity2, ?_⟩
      rcases hcase with ⟨he, hconn, hopen, hsent⟩ | ⟨he, hsent, hrs⟩
      · rcases hrest with ⟨_, hconn2, _, _⟩ | ⟨hany, hsent1, hrs1⟩
        · rw [hopen] at hconn2
          cases hconn2
        · refine Or.inl ⟨by simp [he], hconn, by rw [hsent1, hsent], ?_⟩
          intro h1
          have := hrs1 h1
          rw [hopen] at this
          cases this
      · rcases hrest with ⟨hany, hconn2, hsent1, hne⟩ | ⟨hany, hsent1, hrs1⟩
        · have hc0 : c.readyState = .CONNECTING := by
            rcases hrs with h | h | h
            · rw [← h]; exact hconn2
            · rw [h] at hconn2; cases hconn2
            · rw [h] at hconn2; cases hconn2
          exact Or.inl ⟨by simp [hany], hc0, by rw [hsent1, hsent, hcity2], hne⟩
        · refine Or.inr ⟨by simp [he, hany], by rw [hsent1, hsent], ?_⟩
          intro h1
          have h2 := hrs1 h1
          rcases hrs with h | h | h
          · rw [← h]; exact h2
          · rw [h] at h2; cases h2
          · rw [h] at h2; cases h2

/-- Selecting a city creates exactly one socket, connecting, closed over the
selection, with nothing sent, and makes the handle refer to it. -/
theorem pickCity_new_socket (option : SelectOption) (w : World) :
    (pickCity option w).sockets.length = w.sockets.length + 1
    ∧ (pickCity option w).sockets[w.sockets.length]?
        = some { readyState := .CONNECTING, selectedCity := some option, sent := [] }
    ∧ (pickCity option w).app.socket = some w.sockets.length := by
  simp only [pickCity, cityEffect]
  split <;> simp [initiateWS, closeSocket]

/-- C3 (amended): for every city option whose record has `_id` equal to `X`
(the member the `open` listener reads), selecting it opens exactly one new
connection with nothing sent on it; after any further events, the frames sent
on that connection are the single frame `JSON.stringify(X)` if the connection's
`open` event has fired, and none otherwise. -/
theorem subscribe_frame_is_id_sent_on_open (w : World) (option : SelectOption) (X : JSVal)
    (es : List Event) (w1 : World)
    (hid : getProp option.value "_id" = .ok X)
    (hrun : run (pickCity option w) es = some w1) :
    (pickCity option w).sockets.length = w.sockets.length + 1
    ∧ (pickCity option w).sockets[w.sockets.length]?
        = some { readyState := .CONNECTING, selectedCity := some option, sent := [] }
    ∧ (w1.sockets[w.sockets.length]?).map Connection.sent
        = some (if es.any (Event.isOpenOf w.sockets.length) = true
                then [sendText (stringify X)] else []) := by
  obtain ⟨hlen, hnew, _⟩ := pickCity_new_socket option w
  refine ⟨hlen, hnew, ?_⟩
  obtain ⟨c1, hc1, _, hcase⟩ := socket_run w.sockets.length es _ w1 _ hrun hnew
  have hframes : openFrames (some option) = [sendText (stringify X)] := by
    simp [openFrames, subscribeFrame, hid]
  rw [hc1]
  rcases hcase with ⟨hany, _, hsent, _⟩ | ⟨hany, hsent, _⟩
  · simp only [hframes, List.nil_append] at hsent
    simp [hany, hsent]
  · simp only at hsent
    simp [hany, hsent]

/-- C3, instance: Rome, whose `_id` is "r1", is selected after Italy; the socket
opens and later receives a frame; the single frame sent is the JSON string
for "r1". -/
theorem subscribe_frame_is_id_sent_on_open_witness :
    getProp romeOption.value "_id" = .ok (.str "r1")
    ∧ ∃ w1, run (pickCity romeOption (pickCountry italyOption mount))
          [.wsOpen 0, .wsMessage 0 (.error .syntaxError)] = some w1
      ∧ (w1.sockets[0]?).map Connection.sent = some ["\"r1\""] :=
  ⟨rfl, _, rfl,
    (subscribe_frame_is_id_sent_on_open (pickCountry italyOption mount) romeOption (.str "r1")
      [.wsOpen 0, .wsMessage 0 (.error .syntaxError)] _ rfl rfl).2.2⟩

/-- C3, counterexample: for the record with `id` equal to "r1" (and no `_id`),
selecting the city and opening the connection sends the frame `undefined`, not
the JSON encoding of "r1". -/
theorem subscribe_frame_ignores_id_member :
    (run mount [.pickCountry italyOption,
        .pickCity { value := romeById, label := .str "Rome" }, .wsOpen 0]).map
        (fun w => w.sockets.map Connection.sent) = some [["undefined"]]
    ∧ stringify (.str "r1") = some "\"r1\""
    ∧ "undefined" ≠ "\"r1\"" := by
  refine ⟨rfl, rfl, by decide⟩

theorem Event.eq_wsClose_of_isClose (e : Event) (h : e.isClose = true) :
    ∃ id, e = .wsClose id := by
  cases e <;> simp [Event.isClose] at h
  exact ⟨_, rfl⟩

theorem getElem?_of_length {α : Type} (l : List α) (k : Nat) (h : k < l.length) :
    ∃ a, l[k]? = some a :=
  ⟨l[k], List.getElem?_eq_getElem h⟩

/-! ### The connection handle -/

theorem pickCity_selectedCity (option : SelectOption) (w : World) :
    (pickCity option w).app.selectedCity = some option := by
  simp only [pickCity, cityEffect]
  split <;> rfl

theorem handleInv_step (w w1 : World) (e : Event) (hinv : HandleInv w)
    (hen : uiEnabled w e = true) (h : handle w e = some w1) : HandleInv w1 := by
  obtain ⟨hlen, hnone, hlive, hdangling⟩ := hinv
  by_cases hp : e.isPickCity = true
  · cases e <;> simp [Event.isPickCity] at hp
    rename_i o
    simp only [uiEnabled, Bool.and_eq_true, Option.isNone_iff_eq_none] at hen
    obtain ⟨hnil, hsock⟩ := hnone hen.2
    simp only [handle, Option.some.injEq] at h
    subst h
    obtain ⟨hlen1, hnew, hsock1⟩ := pickCity_new_socket o w
    rw [hnil] at hlen1 hnew hsock1
    simp only [List.length_nil, Nat.zero_add] at hlen1 hnew hsock1
    refine ⟨by omega, ?_, ?_, ?_⟩
    · intro hc
      rw [pickCity_selectedCity] at hc
      cases hc
    · intro id c hc
      have hid : id = 0 := by
        by_contra hne
        rw [List.getElem?_eq_none (by omega)] at hc
        cases hc
      subst hid
      rw [hnew] at hc
      cases hc
      simp [Connection.isLive, hsock1, pickCity_selectedCity]
    · intro id hid
      rw [hsock1] at hid
      cases hid
      omega
  · simp only [Bool.not_eq_true] at hp
    obtain ⟨hlen1, hsock1, hclose⟩ := handle_socket_cell w w1 e h hp
    have hcity : w1.app.selectedCity = w.app.selectedCity := by
      rcases (handle_selection w w1 e h).2 with hc | ⟨o, he, _⟩
      · exact hc
      · subst he
        simp [Event.isPickCity] at hp
    refine ⟨by omega, ?_, ?_, ?_⟩
    · intro hc
      rw [hcity] at hc
      obtain ⟨hnil, hsock⟩ := hnone hc
      rw [hnil] at hlen1
      refine ⟨List.eq_nil_of_length_eq_zero (by simpa using hlen1), ?_⟩
      rw [hsock1, hsock]
      simp
    · intro id c1 hc1
      have hid : id = 0 := by
        by_contra hne
        rw [List.getElem?_eq_none (by omega)] at hc1
        cases hc1
      subst hid
      obtain ⟨c, hc⟩ := getElem?_of_length w.sockets 0 (by
        by_contra hge
        rw [List.getElem?_eq_none (by omega)] at hc1
        cases hc1)
      obtain ⟨c2, hc2, hcase⟩ := socket_step_cases w w1 e 0 c h hc
      rw [hc1] at hc2
      cases hc2
      obtain ⟨hl, hnclosing, hclosure⟩ := hlive 0 c hc
      rcases hcase with ⟨he, hconn, rfl⟩ | ⟨_, he, rfl⟩ | ⟨_, he, _⟩ | ⟨_, he, rfl⟩
      · have hncl : e.isClose = false := by
          cases e <;> simp [Event.isOpenOf] at he
          rfl
        have : w.app.socket = some 0 := hl.1 (by simp [Connection.isLive, hconn])
        simp [Connection.isLive, hsock1, hncl, this, hcity, hclosure]
      · subst he
        simp [Connection.isLive, hsock1, Event.isClose, hcity, hclosure]
      · rw [hp] at he
        cases he
      · by_cases hcl : e.isClose = true
        · obtain ⟨id, rfl⟩ := Event.eq_wsClose_of_isClose e hcl
          have := hclose id rfl
          have hid : id = 0 := by omega
          subst hid
          exact absurd rfl he
        · simp only [hcl] at hsock1
          rw [hsock1, hcity]
          exact ⟨hl, hnclosing, hclosure⟩
    · intro id hid
      by_cases hcl : e.isClose = true
      · simp [hsock1, hcl] at hid
      · simp only [hcl] at hsock1
        rw [hsock1] at hid
        have := hdangling id hid
        omega

theorem handleInv_of_reachable (w : World) (h : Reachable w) : HandleInv w := by
  induction h with
  | mount =>
    refine ⟨by simp [mount, cityEffect, countryEffect, countriesEffect, initialState], ?_, ?_, ?_⟩
    · intro _
      exact ⟨rfl, rfl⟩
    · intro id c hc
      simp [mount, cityEffect, countryEffect, countriesEffect, initialState] at hc
    · intro id hid
      simp [mount, cityEffect, countryEffect, countriesEffect, initialState] at hid
  | step w e w1 _ hen hstep ih => exact handleInv_step w w1 e ih hen hstep

/-! ### One selection, one connection -/

theorem pageInv_unmounted_step (p : Page) (e : Event) (w1 : World)
    (hlen : p.sockets.length ≤ 1)
    (hnclosing : ∀ (id : Nat) (c : Connection), p.sockets[id]? = some c →
      c.readyState ≠ .CLOSING)
    (hstep : handle (p.world initialState) e = some w1) (hnp : e.isPickCity = false) :
    PageInv (Page.unmounted w1) := by
  obtain ⟨hlen1, _, _⟩ := handle_socket_cell _ w1 e hstep hnp
  have hlen2 : w1.sockets.length = p.sockets.length := hlen1
  refine ⟨by show w1.sockets.length ≤ 1; omega, ?_⟩
  intro id c1 hc1
  have hc1' : w1.sockets[id]? = some c1 := hc1
  obtain ⟨c, hc⟩ := getElem?_of_length p.sockets id (by
    by_contra hge
    rw [List.getElem?_eq_none (by omega)] at hc1'
    cases hc1')
  obtain ⟨c2, hc2, hcase⟩ := socket_step_cases (p.world initialState) w1 e id c hstep hc
  rw [hc1'] at hc2
  cases hc2
  have hc0 := hnclosing id c hc
  rcases hcase with ⟨_, _, rfl⟩ | ⟨_, _, rfl⟩ | ⟨_, he, _⟩ | ⟨_, _, rfl⟩
  · simp
  · simp
  · rw [hnp] at he
    cases he
  · exact hc0

theorem pageInv_ofWorld (w : World) (hinv : HandleInv w) : PageInv (Page.ofWorld w) := by
  unfold PageInv Page.ofWorld
  by_cases hthrow : renderThrows w.app = true
  · simp only [hthrow, if_true]
    exact ⟨hinv.1, fun id c hc => (hinv.2.2.1 id c hc).2.1⟩
  · simp only [hthrow]
    exact hinv

theorem pageInv_step (p p1 : Page) (e : Event) (hinv : PageInv p)
    (h : Page.deliver p e = some p1) : PageInv p1 := by
  unfold Page.deliver at h
  unfold PageInv at hinv
  cases hst : p.component with
  | some st =>
    rw [hst] at hinv h
    simp only at hinv h
    split at h
    · rename_i hen
      split at h
      · rename_i w1 hstep
        simp only [Option.some.injEq] at h
        subst h
        exact pageInv_ofWorld w1 (handleInv_step _ w1 e hinv hen hstep)
      · simp at h
    · simp at h
  | none =>
    rw [hst] at hinv h
    simp only at hinv h
    obtain ⟨hlen, hnclosing⟩ := hinv
    cases e with
    | pickCountry o => simp at h
    | pickCity o => simp at h
    | fetchSettled i outcome =>
      simp only at h
      split at h
      · rename_i w1 hstep
        simp only [Option.some.injEq] at h
        subst h
        exact pageInv_unmounted_step p _ w1 hlen hnclosing hstep rfl
      · simp at h
    | wsOpen id =>
      simp only at h
      split at h
      · rename_i w1 hstep
        simp only [Option.some.injEq] at h
        subst h
        exact pageInv_unmounted_step p _ w1 hlen hnclosing hstep rfl
      · simp at h
    | wsMessage id parsed =>
      simp only at h
      split at h
      · rename_i w1 hstep
        simp only [Option.some.injEq] at h
        subst h
        exact pageInv_unmounted_step p _ w1 hlen hnclosing hstep rfl
      · simp at h
    | wsClose id =>
      simp only at h
      split at h
      · rename_i w1 hstep
        simp only [Option.some.injEq] at h
        subst h
        exact pageInv_unmounted_step p _ w1 hlen hnclosing hstep rfl
      · simp at h

theorem handleInv_mount : HandleInv mount := by
  refine ⟨by simp [mount, cityEffect, countryEffect, countriesEffect, initialState], ?_, ?_, ?_⟩
  · intro _
    exact ⟨rfl, rfl⟩
  · intro id c hc
    simp [mount, cityEffect, countryEffect, countriesEffect, initialState] at hc
  · intro id hid
    simp [mount, cityEffect, countryEffect, countriesEffect, initialState] at hid

theorem pageInv_of_reachable (p : Page) (hr : Page.Reachable p) : PageInv p := by
  induction hr with
  | mount => exact pageInv_ofWorld mount handleInv_mount
  | step p e p1 _ hstep ih => exact pageInv_step p p1 e ih hstep

/-- C6 (amended): a second city selection is never delivered. In every state
the page reaches, as soon as a connection exists every city selection is
refused (both dropdowns are disabled while a city is selected, and none is
left after an unmount), whatever state that connection is in. So the
connection opened for the first selected city is the only one the component
ever creates; the component never calls `close()` on it (it is never closing;
only the transport closes it); and while the component is mounted its listeners
are closed over the selected city. -/
theorem first_selection_locks_the_connection (p : Page) (hr : Page.Reachable p) :
    p.sockets.length ≤ 1
    ∧ (∀ (id : Nat) (c : Connection), p.sockets[id]? = some c → c.readyState ≠ .CLOSING)
    ∧ (p.sockets ≠ [] → ∀ o : SelectOption, Page.deliver p (.pickCity o) = none)
    ∧ (∀ (st : AppState) (id : Nat) (c : Connection), p.component = some st →
        p.sockets[id]? = some c →
        st.selectedCity.isSome = true ∧ c.selectedCity = st.selectedCity) := by
  have hinv := pageInv_of_reachable p hr
  unfold PageInv at hinv
  cases hst : p.component with
  | none =>
    rw [hst] at hinv
    simp only at hinv
    refine ⟨hinv.1, hinv.2, ?_, ?_⟩
    · intro _ o
      simp [Page.deliver, hst]
    · intro st id c h
      cases h
  | some st0 =>
    rw [hst] at hinv
    simp only at hinv
    obtain ⟨hlen, hnone, hlive, _⟩ := hinv
    have hsel : p.sockets ≠ [] → st0.selectedCity.isSome = true := by
      intro hne
      cases hcity : st0.selectedCity with
      | none => exact absurd (hnone hcity).1 hne
      | some o => rfl
    refine ⟨hlen, fun id c hc => (hlive id c hc).2.1, ?_, ?_⟩
    · intro hne o
      obtain ⟨o1, ho1⟩ := Option.isSome_iff_exists.mp (hsel hne)
      simp [Page.deliver, hst, uiEnabled, Page.world, ho1]
    · intro st id c h hc
      cases h
      refine ⟨hsel ?_, (hlive id c hc).2.2⟩
      intro hnil
      rw [hnil] at hc
      simp at hc

/-- C6, instance: Italy and Rome are selected and Rome's socket has opened. -/
theorem first_selection_locks_the_connection_witness :
    Page.Reachable
      { component := some { weatherData := .arr [], countries := [],
                            selectedCountry := some italyOption, cities := [],
                            selectedCity := some romeOption, socket := some 0 }
        sockets := [{ readyState := .OPEN, selectedCity := some romeOption, sent := ["\"r1\""] }]
        fetches := [{ request := .countries, settled := false },
                    { request := .cities (.str "Italy"), settled := false }]
        console := [] }
    ∧ ∀ o : SelectOption, Page.deliver
        { component := some { weatherData := .arr [], countries := [],
                              selectedCountry := some italyOption, cities := [],
                              selectedCity := some romeOption, socket := some 0 }
          sockets := [{ readyState := .OPEN, selectedCity := some romeOption, sent := ["\"r1\""] }]
          fetches := [{ request := .countries, settled := false },
                      { request := .cities (.str "Italy"), settled := false }]
          console := [] } (.pickCity o) = none :=
  have hr : Page.Reachable
      { component := some { weatherData := .arr [], countries := [],
                            selectedCountry := some italyOption, cities := [],
                            selectedCity := some romeOption, socket := some 0 }
        sockets := [{ readyState := .OPEN, selectedCity := some romeOption, sent := ["\"r1\""] }]
        fetches := [{ request := .countries, settled := false },
                    { request := .cities (.str "Italy"), settled := false }]
        console := [] } :=
    .step _ (.wsOpen 0) _
      (.step _ (.pickCity romeOption) _
        (.step _ (.pickCountry italyOption) _ .mount rfl) rfl) rfl
  ⟨hr, (first_selection_locks_the_connection _ hr).2.2.1 (by simp)⟩

/-- C6, counterexample: with Italy and Rome selected and Rome's connection
open, the selection of Milan is not delivered, the city dropdown being
disabled: Rome's connection stays open and no connection is opened for Milan.
The same holds once the transport has closed Rome's connection. -/
theorem second_selection_is_not_delivered :
    (Page.run Page.mount [.pickCountry italyOption, .pickCity romeOption, .wsOpen 0]).map
      (fun p => ((Page.deliver p (.pickCity milanOption)).isSome,
        p.sockets.map Connection.readyState)) = some (false, [.OPEN])
    ∧ (Page.run Page.mount [.pickCountry italyOption, .pickCity romeOption, .wsOpen 0,
        .wsClose 0]).map
      (fun p => ((Page.deliver p (.pickCity milanOption)).isSome,
        p.sockets.map Connection.readyState)) = some (false, [.CLOSED]) := by
  decide

/-! ### The connection and the unmount -/

/-- C9, failing input: Italy and Rome are selected, Rome's socket opens and the
server pushes the empty JSON object. The render throws and React unmounts the
tree: the component and its handle are gone, while the socket it opened is
still live, and stays so under further frames, since nothing closes a socket at
unmount. Besides, the `close` listener clears the handle in every world, without
comparing the closing socket with the handle. -/
theorem connection_outlives_unmounted_component :
    (Page.run Page.mount [.pickCountry italyOption, .pickCity romeOption, .wsOpen 0,
        .wsMessage 0 (.ok (.obj []))]).map
      (fun p => (p.component.isSome, p.sockets.map Connection.isLive)) = some (false, [true])
    ∧ (Page.run Page.mount [.pickCountry italyOption, .pickCity romeOption, .wsOpen 0,
        .wsMessage 0 (.ok (.obj [])), .wsMessage 0 (.ok (.obj [("sources", .arr [])]))]).map
      (fun p => (p.component.isSome, p.sockets.map Connection.isLive)) = some (false, [true])
    ∧ ∀ w : World, (closeListener w).app.socket = none :=
  ⟨by decide, by decide, fun _ => rfl⟩

/-! ### Failed directory requests -/

/-- A failed request, settled: the component state is untouched, one line is
logged, the request is marked settled and no request is issued. -/
theorem handle_failed_fetch (w : World) (i : Nat) (f : Fetch) (outcome : Except JSError JSVal)
    (e : JSError) (hf : w.fetches[i]? = some f) (hpending : f.settled = false)
    (hfail : f.request.options outcome = .error e) :
    handle w (.fetchSettled i outcome)
      = some { w with fetches := w.fetches.set i { f with settled := true }
                      console := w.console ++ [f.request.logEntry e] } := by
  simp only [handle, hf, hpending]
  cases hreq : f.request with
  | countries =>
    rw [hreq] at hfail
    simp only [Request.options] at hfail
    simp [countriesSettled, hfail, Request.logEntry]
  | cities c =>
    rw [hreq] at hfail
    simp only [Request.options] at hfail
    simp [citiesSettled, hfail, Request.logEntry]

/-- What one event does to the fetches and to `countries`: settling fetch `i`
marks it settled, and touches `countries` only if it is the country request;
any other event leaves `countries` alone and issues at most one city request. -/
theorem handle_fetches (w w1 : World) (e : Event) (h : handle w e = some w1) :
    (∃ (i : Nat) (f : Fetch), w.fetches[i]? = some f ∧ f.settled = false
        ∧ w1.fetches = w.fetches.set i { f with settled := true }
        ∧ (f.request.isCountries = false → w1.app.countries = w.app.countries))
    ∨ (w1.app.countries = w.app.countries
        ∧ (w1.fetches = w.fetches
            ∨ ∃ c, w1.fetches = w.fetches ++ [{ request := .cities c, settled := false }])) := by
  cases e with
  | fetchSettled i outcome =>
    simp only [handle] at h
    split at h
    · simp at h
    · rename_i f hf
      split at h
      · simp at h
      · rename_i hpending
        refine Or.inl ⟨i, f, hf, by simpa using hpending, ?_⟩
        split at h <;>
        · rename_i hreq
          simp only [Option.some.injEq] at h
          subst h
          simp [countriesSettled_frame, citiesSettled_frame, hreq, Request.isCountries]
  | pickCountry o =>
    simp only [handle, Option.some.injEq] at h
    subst h
    refine Or.inr ⟨by simp [pickCountry, (countryEffect_frame _).1], Or.inr ⟨o.value, ?_⟩⟩
    simp [pickCountry, countryEffect]
  | pickCity o =>
    simp only [handle, Option.some.injEq] at h
    subst h
    refine Or.inr ⟨?_, Or.inl ?_⟩ <;>
    · simp only [pickCity, cityEffect]
      split <;> rfl
  | wsOpen id =>
    simp only [handle] at h
    split at h
    · simp at h
    · split at h
      · simp only [Option.some.injEq] at h
        subst h
        refine Or.inr ⟨by simp [openListener_app, setReadyState], Or.inl ?_⟩
        unfold openListener
        split
        · rfl
        · split <;> rfl
      · simp at h
  | wsMessage id parsed =>
    simp only [handle] at h
    split at h
    · simp at h
    · split at h
      · simp only [Option.some.injEq] at h
        subst h
        exact Or.inr ⟨by simp [messageListener_frame], Or.inl (by simp [messageListener_frame])⟩
      · simp at h
  | wsClose id =>
    simp only [handle] at h
    split at h
    · simp at h
    · split at h
      · simp at h
      · simp only [Option.some.injEq] at h
        subst h
        exact Or.inr ⟨rfl, Or.inl rfl⟩

theorem countriesInv_of_reachable (w : World) (h : Reachable w) : CountriesInv w := by
  induction h with
  | mount =>
    intro i f hf _
    have hlt : i < 1 := by
      by_contra hge
      rw [List.getElem?_eq_none (by
        simp [mount, cityEffect, countryEffect, countriesEffect, initialState]; omega)] at hf
      cases hf
    exact ⟨by omega, fun _ => rfl⟩
  | step w e w1 _ _ hstep ih =>
    intro j f1 hf1 hreq1
    rcases handle_fetches w w1 e hstep with ⟨i, f, hf, _, hset, hcountries⟩ | ⟨hcountries, hsame | ⟨c, happ⟩⟩
    · rw [hset] at hf1
      by_cases hji : i = j
      · subst hji
        have hlt : i < w.fetches.length := by
          by_contra hge
          rw [List.getElem?_eq_none (by omega)] at hf
          cases hf
        rw [List.getElem?_set_self hlt] at hf1
        cases hf1
        exact ⟨(ih i f hf hreq1).1, fun hfalse => by cases hfalse⟩
      · rw [List.getElem?_set_ne hji] at hf1
        obtain ⟨hj0, hempty⟩ := ih j f1 hf1 hreq1
        refine ⟨hj0, fun hpending => ?_⟩
        cases hk : f.request.isCountries with
        | false => rw [hcountries hk]; exact hempty hpending
        | true => exact absurd ((ih i f hf hk).1.trans hj0.symm) hji
    · rw [hsame] at hf1
      rw [hcountries]
      exact ih j f1 hf1 hreq1
    · rw [happ] at hf1
      by_cases hlt : j < w.fetches.length
      · rw [List.getElem?_append_left hlt] at hf1
        rw [hcountries]
        exact ih j f1 hf1 hreq1
      · rw [List.getElem?_append_right (by omega)] at hf1
        have : f1 = { request := .cities c, settled := false } := by
          cases hidx : j - w.fetches.length with
          | zero => rw [hidx] at hf1; simpa using hf1.symm
          | succ n => rw [hidx] at hf1; simp at hf1
        subst this
        simp [Request.isCountries] at hreq1

/-- C7 (amended): when a directory request fails (the fetch rejects, the body
does not parse, or the parsed body cannot be mapped), the failure is logged
with one `console.error` line and nothing else happens: the component state,
both dropdown lists included, is what it was before, and no request is issued.
For the country request, made once at mount, the country list is therefore
empty afterwards; the city list keeps what an earlier city fetch had loaded. -/
theorem failed_fetch_logs_and_keeps_lists (w : World) (i : Nat) (f : Fetch)
    (outcome : Except JSError JSVal) (e : JSError)
    (hf : w.fetches[i]? = some f) (hpending : f.settled = false)
    (hfail : f.request.options outcome = .error e) :
    ∃ w1, handle w (.fetchSettled i outcome) = some w1
      ∧ w1.app = w.app
      ∧ w1.app.countries = w.app.countries ∧ w1.app.cities = w.app.cities
      ∧ w1.console = w.console ++ [f.request.logEntry e]
      ∧ w1.fetches.length = w.fetches.length
      ∧ w1.fetches.map Fetch.request = w.fetches.map Fetch.request
      ∧ w1.sockets = w.sockets
      ∧ (Reachable w → f.request.isCountries = true → w1.app.countries = []) := by
  refine ⟨_, handle_failed_fetch w i f outcome e hf hpending hfail, rfl, rfl, rfl, rfl,
    by simp, ?_, rfl, ?_⟩
  · apply List.ext_getElem?
    intro j
    simp only [List.getElem?_map]
    by_cases hji : i = j
    · subst hji
      have hlt : i < w.fetches.length := by
        by_contra hge
        rw [List.getElem?_eq_none (by omega)] at hf
        cases hf
      rw [List.getElem?_set_self hlt, hf]
      rfl
    · rw [List.getElem?_set_ne hji]
  · intro hr hreq
    exact ((countriesInv_of_reachable w hr) i f hf hreq).2 hpending

/-- C7, instance: the country fetch issued at mount answers with a JSON object
instead of an array; `data.map` throws, one line is logged, the state stays. -/
theorem failed_fetch_logs_and_keeps_lists_witness :
    mount.fetches[0]? = some { request := .countries, settled := false }
    ∧ Request.options .countries (.ok (.obj [("detail", .str "Not Found")])) = .error .typeError
    ∧ ∃ w1, handle mount (.fetchSettled 0 (.ok (.obj [("detail", .str "Not Found")]))) = some w1
      ∧ w1.app = mount.app
      ∧ w1.app.countries = mount.app.countries ∧ w1.app.cities = mount.app.cities
      ∧ w1.console = [.errorFetchingCountries .typeError]
      ∧ w1.fetches.length = 1
      ∧ w1.fetches.map Fetch.request = [.countries]
      ∧ w1.sockets = []
      ∧ (Reachable mount → Request.isCountries .countries = true → w1.app.countries = []) :=
  ⟨rfl, rfl, failed_fetch_logs_and_keeps_lists mount 0 { request := .countries, settled := false }
    (.ok (.obj [("detail", .str "Not Found")])) .typeError rfl rfl rfl⟩

/-- C7, counterexample: Italy's cities are loaded, then France is selected and
its city fetch fails. The city dropdown still lists Rome; it is not empty. -/
theorem failed_city_fetch_keeps_earlier_cities :
    (run mount [.fetchSettled 0 (.ok (.arr [.str "Italy", .str "France"])),
        .pickCountry italyOption, .fetchSettled 1 (.ok (.arr [rome])),
        .pickCountry franceOption, .fetchSettled 2 (.error .typeError)]).map
      (fun w => (w.app.cities.map (fun o => stringify o.label), w.app.cities.isEmpty))
      = some ([some "\"Rome\""], false) := by
  decide

/-! ### Frames of the wrong shape -/

/-- C8, failing input: with Rome selected and the feed open, the frame whose
text is the empty JSON object makes the message listener store `undefined` in
`weatherData`, and the next render throws a `TypeError` reading
`weatherData.length`. The frame whose text is the number 5 does the same. -/
theorem object_without_sources_breaks_render :
    (run mount [.pickCountry italyOption, .pickCity romeOption, .wsOpen 0,
        .wsMessage 0 (.ok (.obj []))]).map
      (fun w => (w.app.weatherData, renderLength w.app, w.console.length))
      = some (.undefined, .error .typeError, 0)
    ∧ (run mount [.pickCountry italyOption, .pickCity romeOption, .wsOpen 0,
        .wsMessage 0 (.ok (.num "5"))]).map
      (fun w => (w.app.weatherData, renderLength w.app, w.console.length))
      = some (.undefined, .error .typeError, 0) :=
  ⟨rfl, rfl⟩

end Weather
